import Mathlib

/-!
Shallow embedding of the five-stage PDF question-answering pipeline in
`trial.py` (LangGraph orchestration of interpret / extract / summarize /
search / verify stages).

External collaborators — the language-model gateway and the PDF extraction
tool — are modelled as oracle functions passed to each stage.  A gateway
call whose response fails schema parsing is an oracle returning
`Except.error ()`; a successful parse is `Except.ok payload`.  Python
exceptions raised by a stage are `Except.error` values of type `Err`;
`asyncio.gather` without `return_exceptions` is `gatherExcept`
(first raising task aborts the collected result).  LangGraph merging of a
node's returned partial dict into the state, with the `add_messages`
reducer on `messages`, is `applyUpdate`.
-/

namespace Trial

/-- Pydantic model `InputData` (trial.py lines 21-23). -/
structure InputData where
  pdf_path : String
  query : String
deriving Repr, DecidableEq

/-- An extracted page dict `{"page_number": ..., "content": ...}` as produced
by the PDF tool and re-built in `process_pdf` (trial.py lines 97-100). -/
structure PageContent where
  page_number : Int
  content : String
deriving Repr, DecidableEq

/-- Pydantic model `PageSummary` (trial.py lines 24-27).  Note `key_points`
is `List[str]` with no structural length constraint. -/
structure PageSummary where
  page_number : Int
  heading_sentence : String
  key_points : List String
deriving Repr, DecidableEq

/-- Pydantic model `SearchResult` (trial.py lines 28-30). -/
structure SearchResult where
  content : String
  claimed_page : Int
deriving Repr, DecidableEq

/-- Pydantic model `SearchResultList` (trial.py lines 31-32).  The `results`
list carries no structural bound on its length. -/
structure SearchResultList where
  results : List SearchResult
deriving Repr, DecidableEq

/-- Pydantic model `VerificationResult` (trial.py lines 33-35). -/
structure VerificationResult where
  valid : Bool
  explanation : String
deriving Repr, DecidableEq

/-- The dict built for a retained verified point in `verify_results`
(trial.py lines 224-228). -/
structure VerifiedPoint where
  content : String
  source : String
  explanation : String
deriving Repr, DecidableEq

/-- A chat message `{"role": ..., "content": ...}`. -/
structure Message where
  role : String
  content : String
deriving Repr, DecidableEq

/-- The LangGraph `State` TypedDict (trial.py lines 45-52).  Keys absent in
Python (`state.get(k, [])` / `state.get(k)`) are the empty list / empty
string here. -/
structure State where
  messages : List Message
  pdf_path : String
  query : String
  extracted_pages : List PageContent
  summarized_pages : List PageSummary
  search_results : List SearchResult
  verified_results : List VerifiedPoint
deriving Repr, DecidableEq

/-- The Python exceptions the stages can raise (each `raise ValueError(...)`
site, the uncaught extractor exception, and the `IndexError` from
`summary['key_points'][i]`), plus the parse exception propagating out of
`summarize_page` through `asyncio.gather`. -/
inductive Err where
  | noInput
  | inputParseFailed
  | pdfPathNotFound
  | extractorFailed
  | summaryParseFailed
  | queryNotFound
  | summariesNotFound
  | searchParseFailed
  | indexError
  | noSearchResults
  | noExtractedPages
deriving Repr, DecidableEq

/-- The partial state update a LangGraph node returns (the dict of only the
keys it sets).  `none` = key absent from the returned dict; `messages`
defaults to `[]` (no message appended). -/
structure Update where
  messages : List Message := []
  pdf_path : Option String := none
  query : Option String := none
  extracted_pages : Option (List PageContent) := none
  summarized_pages : Option (List PageSummary) := none
  search_results : Option (List SearchResult) := none
  verified_results : Option (List VerifiedPoint) := none
deriving Repr, DecidableEq

/-- LangGraph state merge: the `add_messages` reducer appends to `messages`;
every other key present in the update overwrites the state's value. -/
def applyUpdate (s : State) (u : Update) : State where
  messages := s.messages ++ u.messages
  pdf_path := u.pdf_path.getD s.pdf_path
  query := u.query.getD s.query
  extracted_pages := u.extracted_pages.getD s.extracted_pages
  summarized_pages := u.summarized_pages.getD s.summarized_pages
  search_results := u.search_results.getD s.search_results
  verified_results := u.verified_results.getD s.verified_results

/-- Denotation of `await asyncio.gather(*tasks)` with the default
`return_exceptions=False`: if every task returns, the results are collected
in task order; if any task raises, the exception propagates and no result
list is produced. -/
def gatherExcept : List (Except ε α) → Except ε (List α)
  | [] => Except.ok []
  | Except.error e :: _ => Except.error e
  | Except.ok a :: rest => (gatherExcept rest).map (fun l => a :: l)

/-- `process_input` (trial.py lines 62-85): the Interpret stage.  The oracle
is the composition of the gateway call on the parsing prompt for the last
user message with `input_parser.parse`. -/
def process_input (inputOracle : String → Except Unit InputData) (s : State) :
    Except Err Update :=
  match s.messages.getLast? with
  | none => Except.error Err.noInput
  | some user_message =>
    match inputOracle user_message.content with
    | Except.error _ => Except.error Err.inputParseFailed
    | Except.ok parsed_data =>
        Except.ok { pdf_path := some parsed_data.pdf_path
                    query := some parsed_data.query }

/-- `process_pdf` (trial.py lines 87-101): the Extract stage.  `pdf_tool`
is the external PDFPlumber tool: `Except.error` is an exception raised by
`pdf_tool.invoke`, `Except.ok pages` is `pdf_result.get("pages", [])`. -/
def process_pdf (pdf_tool : String → Except Unit (List PageContent))
    (s : State) : Except Err Update :=
  if s.pdf_path = "" then Except.error Err.pdfPathNotFound
  else
    match pdf_tool s.pdf_path with
    | Except.error _ => Except.error Err.extractorFailed
    | Except.ok pages =>
        Except.ok { extracted_pages := some (pages.map (fun page =>
          { page_number := page.page_number, content := page.content })) }

/-- `summarize_page` (trial.py lines 103-136): the Summarize stage.  The
oracle is the per-page gateway call composed with `summary_parser.parse`
(the inner `summarize` coroutine, which re-raises parse failures); the
fan-out is `asyncio.gather` over one task per extracted page. -/
def summarize_page (summaryOracle : PageContent → Except Unit PageSummary)
    (s : State) : Except Err Update :=
  match gatherExcept (s.extracted_pages.map (fun page_data => summaryOracle page_data)) with
  | Except.error _ => Except.error Err.summaryParseFailed
  | Except.ok summaries =>
      Except.ok { summarized_pages := some (summaries.map (fun summary =>
        { page_number := summary.page_number
          heading_sentence := summary.heading_sentence
          key_points := summary.key_points })) }

/-- One summary's block inside `concatenated_summaries` (trial.py lines
148-156).  Indexing `summary['key_points'][0..2]` raises `IndexError` when
the list is too short. -/
def summaryBlock (summary : PageSummary) : Except Err String :=
  match summary.key_points.get? 0, summary.key_points.get? 1,
        summary.key_points.get? 2 with
  | some k0, some k1, some k2 =>
      Except.ok ("Page " ++ toString summary.page_number ++ ":\n- **Heading Sentence**: "
        ++ summary.heading_sentence ++ "\n- **Key Points**:\n  1. " ++ k0
        ++ "\n  2. " ++ k1 ++ "\n  3. " ++ k2)
  | _, _, _ => Except.error Err.indexError

/-- The blocks joined by `"\n\n".join(...)` in `search_summaries`; an
`IndexError` from any block aborts the join. -/
def concatSummaries : List PageSummary → Except Err (List String)
  | [] => Except.ok []
  | summary :: rest =>
    match summaryBlock summary with
    | Except.error e => Except.error e
    | Except.ok b => (concatSummaries rest).map (fun l => b :: l)

/-- `search_summaries` (trial.py lines 138-178): the Search stage.  The
oracle is the single gateway call on the search prompt (built from the
concatenated summaries and the query) composed with
`search_result_list_parser.parse`. -/
def search_summaries
    (searchOracle : String → String → Except Unit SearchResultList)
    (s : State) : Except Err Update :=
  if s.query = "" then Except.error Err.queryNotFound
  else if s.summarized_pages = [] then Except.error Err.summariesNotFound
  else
    match concatSummaries s.summarized_pages with
    | Except.error e => Except.error e
    | Except.ok blocks =>
      match searchOracle (String.intercalate "\n\n" blocks) s.query with
      | Except.error _ => Except.error Err.searchParseFailed
      | Except.ok parsed_results =>
          Except.ok { search_results := some parsed_results.results }

/-- The inner `verify` coroutine of `verify_results` (trial.py lines
189-231).  It never raises: a missing claimed page, a parse failure
(caught by the `try/except`), or `valid == False` all yield `None`.  The
oracle is the per-result gateway verification call (whose prompt embeds the
search result and the matched page's raw content) composed with
`verification_parser.parse`. -/
def verifyTask
    (verificationOracle : SearchResult → PageContent → Except Unit VerificationResult)
    (extracted_pages : List PageContent) (result : SearchResult) :
    Option VerifiedPoint :=
  match extracted_pages.find? (fun page => page.page_number == result.claimed_page) with
  | none => none
  | some matching_page =>
    match verificationOracle result matching_page with
    | Except.error _ => none
    | Except.ok verification_result =>
      if verification_result.valid then
        some { content := result.content
               source := "Page " ++ toString result.claimed_page
               explanation := verification_result.explanation }
      else none

/-- The fan-out `tasks = [verify(result) for result in search_results]`;
`await asyncio.gather(*tasks)` over these never-raising tasks collects one
slot per search result, in input order (trial.py lines 234-235). -/
def verifyGather
    (verificationOracle : SearchResult → PageContent → Except Unit VerificationResult)
    (extracted_pages : List PageContent) (search_results : List SearchResult) :
    List (Option VerifiedPoint) :=
  search_results.map (fun result => verifyTask verificationOracle extracted_pages result)

/-- `verify_results` (trial.py lines 180-251): the Verify stage. -/
def verify_results
    (verificationOracle : SearchResult → PageContent → Except Unit VerificationResult)
    (s : State) : Except Err Update :=
  if s.search_results = [] then Except.error Err.noSearchResults
  else if s.extracted_pages = [] then Except.error Err.noExtractedPages
  else
    let all_verified_points := verifyGather verificationOracle s.extracted_pages s.search_results
    let verified_results := all_verified_points.filterMap (fun point => point)
    let formatted_results := String.intercalate "\n\n"
      (verified_results.map (fun result => result.content ++ " (Source: " ++ result.source ++ ")"))
    Except.ok { messages := [{ role := "assistant"
                               content := "Verified Results:\n\n" ++ formatted_results }]
                verified_results := some verified_results }

/-- The external collaborators of one pipeline run. -/
structure Oracles where
  inputOracle : String → Except Unit InputData
  pdf_tool : String → Except Unit (List PageContent)
  summaryOracle : PageContent → Except Unit PageSummary
  searchOracle : String → String → Except Unit SearchResultList
  verificationOracle : SearchResult → PageContent → Except Unit VerificationResult

/-- The compiled linear graph START → process_input → process_pdf →
summarize_page → search_summaries → verify_results → END (trial.py lines
255-266): each node's update is merged into the state before the next node
runs; a raising node aborts the run. -/
def runPipeline (o : Oracles) (s : State) : Except Err State :=
  match process_input o.inputOracle s with
  | Except.error e => Except.error e
  | Except.ok u1 =>
    match process_pdf o.pdf_tool (applyUpdate s u1) with
    | Except.error e => Except.error e
    | Except.ok u2 =>
      match summarize_page o.summaryOracle (applyUpdate (applyUpdate s u1) u2) with
      | Except.error e => Except.error e
      | Except.ok u3 =>
        match search_summaries o.searchOracle
            (applyUpdate (applyUpdate (applyUpdate s u1) u2) u3) with
        | Except.error e => Except.error e
        | Except.ok u4 =>
          match verify_results o.verificationOracle
              (applyUpdate (applyUpdate (applyUpdate (applyUpdate s u1) u2) u3) u4) with
          | Except.error e => Except.error e
          | Except.ok u5 =>
              Except.ok (applyUpdate
                (applyUpdate (applyUpdate (applyUpdate (applyUpdate s u1) u2) u3) u4) u5)

/-- The initial state built in `astream_graph_updates` (trial.py lines
285-291) for one user input line. -/
def initial_state (user_input : String) : State where
  messages := [{ role := "user", content := user_input }]
  pdf_path := ""
  query := ""
  extracted_pages := []
  summarized_pages := []
  search_results := []
  verified_results := []

/-! ### Helper lemmas -/

/-- A fan-out whose tasks all yield `None` collects to the empty list after
the `if point` filter. -/
theorem filterMap_map_eq_nil {α β : Type} {l : List α} {task : α → Option β}
    (h : ∀ a ∈ l, task a = none) :
    (l.map task).filterMap (fun point => point) = [] := by
  induction l with
  | nil => rfl
  | cons a t ih =>
      rw [List.map_cons,
        show (task a :: t.map task).filterMap (fun point => point)
            = (t.map task).filterMap (fun point => point) from
          List.filterMap_cons_none (by simpa using h a (List.mem_cons_self a t))]
      exact ih (fun x hx => h x (List.mem_cons_of_mem a hx))

/-! ### Claim theorems -/

/-- Claim C9: whenever `searchResults` is empty, or `pages` is empty, the
Verify stage raises a fatal `ValueError` (so the run aborts with no
`verified_results` written and no assistant message appended): an empty
`search_results` raises "No search results to verify.", and a non-empty
`search_results` with empty `extracted_pages` raises "No extracted pages to
verify against.". -/
theorem c9_verify_guards
    (verificationOracle : SearchResult → PageContent → Except Unit VerificationResult)
    (s : State) :
    (s.search_results = [] →
      verify_results verificationOracle s = Except.error Err.noSearchResults) ∧
    (s.search_results ≠ [] → s.extracted_pages = [] →
      verify_results verificationOracle s = Except.error Err.noExtractedPages) := by
  constructor
  · intro h
    simp [verify_results, h]
  · intro h1 h2
    simp [verify_results, h1, h2]

/-- Concrete scenarios for `c9_verify_guards`. -/
def alwaysValidOracle : SearchResult → PageContent → Except Unit VerificationResult :=
  fun _ _ => Except.ok { valid := true, explanation := "ok" }

/-- A state reaching Verify with no search results. -/
def emptyResultsState : State :=
  { messages := [], pdf_path := "doc.pdf", query := "q"
    extracted_pages := [{ page_number := 1, content := "raw" }]
    summarized_pages := [], search_results := [], verified_results := [] }

/-- A state reaching Verify with a search result but no extracted pages. -/
def noPagesState : State :=
  { messages := [], pdf_path := "doc.pdf", query := "q"
    extracted_pages := []
    summarized_pages := []
    search_results := [{ content := "claim", claimed_page := 1 }]
    verified_results := [] }

/-- Witness for `c9_verify_guards` at concrete states. -/
theorem c9_verify_guards_witness :
    verify_results alwaysValidOracle emptyResultsState = Except.error Err.noSearchResults ∧
    verify_results alwaysValidOracle noPagesState = Except.error Err.noExtractedPages :=
  ⟨(c9_verify_guards alwaysValidOracle emptyResultsState).1 rfl,
   (c9_verify_guards alwaysValidOracle noPagesState).2 (by decide) rfl⟩

/-- Claim C4: a SearchResult whose `claimed_page` matches no extracted
page's `page_number` is dropped silently: its verification task yields
`None` (no VerificationRecord), its slot in the fan-out is `None` while
every sibling slot is that sibling's own task value, and the Verify stage
still completes without error on any state passing its emptiness guards. -/
theorem c4_unmatched_page_dropped
    (verificationOracle : SearchResult → PageContent → Except Unit VerificationResult)
    (pages : List PageContent) (r : SearchResult)
    (habs : ∀ p ∈ pages, p.page_number ≠ r.claimed_page) :
    verifyTask verificationOracle pages r = none ∧
    (∀ before after, verifyGather verificationOracle pages (before ++ r :: after) =
      verifyGather verificationOracle pages before ++
        none :: verifyGather verificationOracle pages after) ∧
    (∀ s : State, s.search_results ≠ [] → s.extracted_pages ≠ [] →
      (verify_results verificationOracle s).isOk = true) := by
  have hfind : pages.find? (fun page => page.page_number == r.claimed_page) = none :=
    List.find?_eq_none.mpr (fun x hx => by simpa using habs x hx)
  have htask : verifyTask verificationOracle pages r = none := by
    simp [verifyTask, hfind]
  refine ⟨htask, ?_, ?_⟩
  · intro before after
    simp [verifyGather, htask]
  · intro s h1 h2
    simp only [verify_results, if_neg h1, if_neg h2]
    rfl

/-- Concrete scenario for `c4_unmatched_page_dropped`: one page numbered 1,
a result claiming page 2. -/
def pagesOnlyOne : List PageContent := [{ page_number := 1, content := "alpha" }]

/-- A search result claiming a page that does not exist. -/
def pageTwoClaim : SearchResult := { content := "claim", claimed_page := 2 }

/-- Witness for `c4_unmatched_page_dropped` at a concrete input. -/
theorem c4_unmatched_page_dropped_witness :
    verifyTask alwaysValidOracle pagesOnlyOne pageTwoClaim = none :=
  (c4_unmatched_page_dropped alwaysValidOracle pagesOnlyOne pageTwoClaim (by decide)).1

/-- Claim C6: when every verification call in a non-empty batch fails to
parse, the Verify stage still completes: it returns `verified_results = []`
and appends the single assistant message whose content is exactly
"Verified Results:\n\n", rather than raising. -/
theorem c6_all_parse_failures_tolerated
    (verificationOracle : SearchResult → PageContent → Except Unit VerificationResult)
    (s : State) (h1 : s.search_results ≠ []) (h2 : s.extracted_pages ≠ [])
    (hfail : ∀ r ∈ s.search_results, ∀ p, verificationOracle r p = Except.error ()) :
    verify_results verificationOracle s =
      Except.ok { messages := [{ role := "assistant"
                                 content := "Verified Results:\n\n" }]
                  verified_results := some [] } := by
  have hall : ∀ r ∈ s.search_results,
      verifyTask verificationOracle s.extracted_pages r = none := by
    intro r hr
    unfold verifyTask
    rcases hfind : s.extracted_pages.find?
        (fun page => page.page_number == r.claimed_page) with _ | p
    · rw [hfind]
    · rw [hfind]
      simp [hfail r hr p]
  have hnil : (s.search_results.map
      (fun result => verifyTask verificationOracle s.extracted_pages result)).filterMap
        (fun point => point) = [] :=
    filterMap_map_eq_nil (fun a ha => hall a ha)
  simp only [verify_results, if_neg h1, if_neg h2, verifyGather, hnil]
  rw [show ("\n\n".intercalate (([] : List VerifiedPoint).map
      (fun result => result.content ++ " (Source: " ++ result.source ++ ")"))) = ""
    from rfl, String.append_empty]

/-- Concrete scenario for `c6_all_parse_failures_tolerated`: three search
results, all of whose verification calls fail to parse. -/
def alwaysFailOracle : SearchResult → PageContent → Except Unit VerificationResult :=
  fun _ _ => Except.error ()

/-- A state with one page and a batch of 3 search results. -/
def threeResultsState : State :=
  { messages := [], pdf_path := "doc.pdf", query := "q"
    extracted_pages := [{ page_number := 1, content := "raw" }]
    summarized_pages := []
    search_results := [{ content := "a", claimed_page := 1 },
                       { content := "b", claimed_page := 1 },
                       { content := "c", claimed_page := 2 }]
    verified_results := [] }

/-- Witness for `c6_all_parse_failures_tolerated` at the 3-result batch. -/
theorem c6_all_parse_failures_tolerated_witness :
    verify_results alwaysFailOracle threeResultsState =
      Except.ok { messages := [{ role := "assistant"
                                 content := "Verified Results:\n\n" }]
                  verified_results := some [] } :=
  c6_all_parse_failures_tolerated alwaysFailOracle threeResultsState (by decide) (by decide)
    (fun _ _ _ => rfl)

/-- Claim C7: on success the Verify stage appends exactly one assistant
message whose content lists every retained record as
"`<content>` (Source: `<source>`)" joined by blank lines, the `source` of
every retained record being "Page `<claimed page>`" for the originating
search result's claimed page, and its content the result's content. -/
theorem c7_final_message_format
    (verificationOracle : SearchResult → PageContent → Except Unit VerificationResult)
    (s : State) (u : Update)
    (h : verify_results verificationOracle s = Except.ok u) :
    u.verified_results = some (u.verified_results.getD []) ∧
    u.messages = [{ role := "assistant"
                    content := "Verified Results:\n\n" ++ String.intercalate "\n\n"
                      ((u.verified_results.getD []).map
                        (fun record => record.content ++ " (Source: " ++ record.source ++ ")")) }] ∧
    ∀ record ∈ u.verified_results.getD [], ∃ r ∈ s.search_results,
      record.content = r.content ∧
      record.source = "Page " ++ toString r.claimed_page := by
  by_cases h1 : s.search_results = []
  · simp [verify_results, h1] at h
  by_cases h2 : s.extracted_pages = []
  · simp [verify_results, h1, h2] at h
  simp only [verify_results, if_neg h1, if_neg h2] at h
  injection h with h
  subst h
  refine ⟨rfl, rfl, ?_⟩
  intro record hrec
  simp only [Option.getD_some, List.mem_filterMap] at hrec
  obtain ⟨o, ho, hid⟩ := hrec
  simp only [verifyGather, List.mem_map] at ho
  obtain ⟨r, hr, htask⟩ := ho
  refine ⟨r, hr, ?_⟩
  rw [hid] at htask
  unfold verifyTask at htask
  rcases hfind : s.extracted_pages.find?
      (fun page => page.page_number == r.claimed_page) with _ | p
  · rw [hfind] at htask
    cases htask
  · rw [hfind] at htask
    rcases horacle : verificationOracle r p with e | v
    · simp [horacle] at htask
    · simp only [horacle] at htask
      rcases hvalid : v.valid with _ | _
      · simp [hvalid] at htask
      · simp only [hvalid, if_true] at htask
        injection htask with h3
        subst h3
        exact ⟨rfl, rfl⟩

/-- The update the Verify stage produces on the 3-result batch when every
verification parses as valid: the page-2 claim is dropped, the two page-1
claims are retained. -/
def threeResultsUpdate : Update :=
  { messages := [{ role := "assistant"
                   content := "Verified Results:\n\na (Source: Page 1)\n\nb (Source: Page 1)" }]
    verified_results := some
      [{ content := "a", source := "Page 1", explanation := "ok" },
       { content := "b", source := "Page 1", explanation := "ok" }] }

/-- Witness for `c7_final_message_format` at a concrete verification run. -/
theorem c7_final_message_format_witness :
    threeResultsUpdate.verified_results = some (threeResultsUpdate.verified_results.getD []) ∧
    threeResultsUpdate.messages = [{
      role := "assistant",
      content := "Verified Results:\n\n" ++ String.intercalate "\n\n"
        ((threeResultsUpdate.verified_results.getD []).map
          (fun record => record.content ++ " (Source: " ++ record.source ++ ")")) }] ∧
    ∀ record ∈ threeResultsUpdate.verified_results.getD [],
      ∃ r ∈ threeResultsState.search_results,
        record.content = r.content ∧
        record.source = "Page " ++ toString r.claimed_page :=
  c7_final_message_format alwaysValidOracle threeResultsState threeResultsUpdate rfl

/-- Claim C5, amended: `verified_results` is the subset of `search_results`
retained by page existence and a model-asserted `valid == True`
verification, so its size is at most the number of search results.  (The
"size(searchResults) ≤ 10" part of the claim is refuted by
`c5_results_cap_counterexample`: the parsed search-result list is not
structurally capped at 10.) -/
theorem c5_verified_subset_of_search
    (verificationOracle : SearchResult → PageContent → Except Unit VerificationResult)
    (s : State) (u : Update)
    (h : verify_results verificationOracle s = Except.ok u) :
    u.verified_results = some (u.verified_results.getD []) ∧
    (u.verified_results.getD []).length ≤ s.search_results.length ∧
    ∀ record ∈ u.verified_results.getD [], ∃ r ∈ s.search_results, ∃ p,
      s.extracted_pages.find? (fun page => page.page_number == r.claimed_page) = some p ∧
      ∃ v, verificationOracle r p = Except.ok v ∧ v.valid = true ∧
        record = { content := r.content
                   source := "Page " ++ toString r.claimed_page
                   explanation := v.explanation } := by
  by_cases h1 : s.search_results = []
  · simp [verify_results, h1] at h
  by_cases h2 : s.extracted_pages = []
  · simp [verify_results, h1, h2] at h
  simp only [verify_results, if_neg h1, if_neg h2] at h
  injection h with h
  subst h
  refine ⟨rfl, ?_, ?_⟩
  · simp only [Option.getD_some, verifyGather]
    exact le_trans (List.length_filterMap_le _ _) (le_of_eq (List.length_map _ _))
  intro record hrec
  simp only [Option.getD_some, List.mem_filterMap] at hrec
  obtain ⟨o, ho, hid⟩ := hrec
  simp only [verifyGather, List.mem_map] at ho
  obtain ⟨r, hr, htask⟩ := ho
  refine ⟨r, hr, ?_⟩
  rw [hid] at htask
  unfold verifyTask at htask
  rcases hfind : s.extracted_pages.find?
      (fun page => page.page_number == r.claimed_page) with _ | p
  · rw [hfind] at htask
    cases htask
  · rw [hfind] at htask
    refine ⟨p, hfind, ?_⟩
    rcases horacle : verificationOracle r p with e | v
    · simp [horacle] at htask
    · simp only [horacle] at htask
      rcases hvalid : v.valid with _ | _
      · simp [hvalid] at htask
      · simp only [hvalid, if_true] at htask
        injection htask with h3
        exact ⟨v, rfl, hvalid, h3.symm⟩

/-- Witness for `c5_verified_subset_of_search` at a concrete run. -/
theorem c5_verified_subset_of_search_witness :
    threeResultsUpdate.verified_results = some (threeResultsUpdate.verified_results.getD []) ∧
    (threeResultsUpdate.verified_results.getD []).length ≤
      threeResultsState.search_results.length ∧
    ∀ record ∈ threeResultsUpdate.verified_results.getD [],
      ∃ r ∈ threeResultsState.search_results, ∃ p,
        threeResultsState.extracted_pages.find?
          (fun page => page.page_number == r.claimed_page) = some p ∧
        ∃ v, alwaysValidOracle r p = Except.ok v ∧ v.valid = true ∧
          record = { content := r.content
                     source := "Page " ++ toString r.claimed_page
                     explanation := v.explanation } :=
  c5_verified_subset_of_search alwaysValidOracle threeResultsState threeResultsUpdate rfl

/-- Oracles for a full pipeline run in which the search gateway call parses
to an 11-element result list. -/
def elevenResultOracles : Oracles :=
  { inputOracle := fun _ => Except.ok { pdf_path := "doc.pdf", query := "revenue" }
    pdf_tool := fun _ => Except.ok [{ page_number := 1, content := "Revenue grew." }]
    summaryOracle := fun _ => Except.ok
      { page_number := 1, heading_sentence := "Growth."
        key_points := ["a", "b", "c"] }
    searchOracle := fun _ _ => Except.ok
      { results := List.replicate 11 { content := "claim", claimed_page := 1 } }
    verificationOracle := fun _ _ => Except.ok { valid := true, explanation := "ok" } }

/-- Observation of a completed run: `some` of the final `search_results`
length, `none` when the run aborted. -/
def searchLenOfRun : Except Err State → Option Nat
  | Except.ok st => some st.search_results.length
  | Except.error _ => none

/-- Counterexample to claim C5 as stated: a session that completes the
whole pipeline with `search_results` of size 11 — nothing in the code caps
the parsed search-result list at 10, so "size(searchResults) ≤ 10" fails. -/
theorem c5_results_cap_counterexample :
    searchLenOfRun (runPipeline elevenResultOracles (initial_state "find revenue")) =
      some 11 := rfl

/-- Claim C3, amended: the Extract stage fails fatally exactly when
`pdf_path` is empty; when the extractor returns a page list — even the
empty one — the stage succeeds and writes it to `extracted_pages`.  (The
"fails when the extractor reports zero pages" part of the claim is refuted
by `c3_zero_pages_counterexample`.) -/
theorem c3_extract_guard
    (pdf_tool : String → Except Unit (List PageContent)) (s : State) :
    (s.pdf_path = "" → process_pdf pdf_tool s = Except.error Err.pdfPathNotFound) ∧
    (∀ pages, s.pdf_path ≠ "" → pdf_tool s.pdf_path = Except.ok pages →
      process_pdf pdf_tool s = Except.ok { extracted_pages := some pages }) := by
  constructor
  · intro h
    simp [process_pdf, h]
  · intro pages h1 h2
    simp only [process_pdf, if_neg h1, h2]
    rw [show (fun page : PageContent =>
        ({ page_number := page.page_number, content := page.content } : PageContent))
      = fun page => page from rfl, List.map_id']

/-- An extractor that reports zero pages. -/
def zeroPagesTool : String → Except Unit (List PageContent) := fun _ => Except.ok []

/-- A state whose `pdf_path` is set, fed to Extract. -/
def pathOnlyState : State :=
  { messages := [], pdf_path := "doc.pdf", query := "q"
    extracted_pages := [], summarized_pages := []
    search_results := [], verified_results := [] }

/-- Witness for `c3_extract_guard` at concrete inputs (both branches). -/
theorem c3_extract_guard_witness :
    process_pdf zeroPagesTool (initial_state "hi") = Except.error Err.pdfPathNotFound ∧
    process_pdf zeroPagesTool pathOnlyState = Except.ok { extracted_pages := some [] } :=
  ⟨(c3_extract_guard zeroPagesTool (initial_state "hi")).1 rfl,
   (c3_extract_guard zeroPagesTool pathOnlyState).2 [] (by decide) rfl⟩

/-- Counterexample to claim C3 as stated: with a non-empty `pdf_path` and an
extractor reporting zero pages, the Extract stage does not fail — it
succeeds and writes `extracted_pages = []` (the run only aborts later, at
the Search stage's summaries guard). -/
theorem c3_zero_pages_counterexample :
    process_pdf zeroPagesTool pathOnlyState = Except.ok { extracted_pages := some [] } :=
  rfl

/-- A gather batch one of whose tasks raises propagates the exception: no
result list is produced for any sibling. -/
theorem gatherExcept_of_mem_error {α β : Type} (oracle : α → Except Unit β) :
    ∀ (l : List α), (∃ p ∈ l, oracle p = Except.error ()) →
      gatherExcept (l.map oracle) = Except.error () := by
  intro l
  induction l with
  | nil =>
      intro h
      obtain ⟨p, hp, _⟩ := h
      cases hp
  | cons a t ih =>
      intro h
      obtain ⟨p, hp, herr⟩ := h
      rcases ha : oracle a with e | b
      · rw [List.map_cons, ha]
        rfl
      · rcases List.mem_cons.mp hp with rfl | hpt
        · rw [ha] at herr
          cases herr
        · rw [List.map_cons, ha]
          show (gatherExcept (t.map oracle)).map (fun bs => b :: bs) = Except.error ()
          rw [ih ⟨p, hpt, herr⟩]
          rfl

/-- Claim C2: if any single page's summary response fails to parse, the
whole Summarize stage raises (no partial `summarized_pages` is produced),
and a pipeline run reaching the stage in that condition aborts with that
error, never writing `summaries`. -/
theorem c2_summarize_all_or_nothing
    (summaryOracle : PageContent → Except Unit PageSummary) (s : State)
    (h : ∃ page ∈ s.extracted_pages, summaryOracle page = Except.error ()) :
    summarize_page summaryOracle s = Except.error Err.summaryParseFailed ∧
    ∀ (o : Oracles) (init : State) (u1 u2 : Update),
      o.summaryOracle = summaryOracle →
      process_input o.inputOracle init = Except.ok u1 →
      process_pdf o.pdf_tool (applyUpdate init u1) = Except.ok u2 →
      applyUpdate (applyUpdate init u1) u2 = s →
      runPipeline o init = Except.error Err.summaryParseFailed := by
  have hg : gatherExcept (s.extracted_pages.map (fun page_data => summaryOracle page_data))
      = Except.error () := gatherExcept_of_mem_error summaryOracle s.extracted_pages h
  have hmain : summarize_page summaryOracle s = Except.error Err.summaryParseFailed := by
    unfold summarize_page
    rw [hg]
  refine ⟨hmain, ?_⟩
  intro o init u1 u2 ho hpi hpdf hstate
  rw [← ho] at hmain
  simp only [runPipeline, hpi, hpdf, hstate, hmain]

/-- A summarize oracle that fails to parse exactly the page numbered 2. -/
def pageTwoFailsOracle : PageContent → Except Unit PageSummary :=
  fun page_data =>
    if page_data.page_number = 2 then Except.error ()
    else Except.ok { page_number := page_data.page_number
                     heading_sentence := "fine"
                     key_points := ["a", "b", "c"] }

/-- Oracles whose summarize call fails on page 2 of a two-page document. -/
def pageTwoFailsOracles : Oracles :=
  { inputOracle := fun _ => Except.ok { pdf_path := "doc.pdf", query := "q" }
    pdf_tool := fun _ => Except.ok [{ page_number := 1, content := "one" },
                                    { page_number := 2, content := "two" }]
    summaryOracle := pageTwoFailsOracle
    searchOracle := fun _ _ => Except.ok { results := [] }
    verificationOracle := fun _ _ => Except.ok { valid := true, explanation := "ok" } }

/-- The state reaching the Summarize stage in the `pageTwoFailsOracles` run. -/
def twoPageState : State :=
  { messages := [{ role := "user", content := "go" }]
    pdf_path := "doc.pdf", query := "q"
    extracted_pages := [{ page_number := 1, content := "one" },
                        { page_number := 2, content := "two" }]
    summarized_pages := [], search_results := [], verified_results := [] }

/-- Witness for `c2_summarize_all_or_nothing` on the two-page run whose
second page fails to parse. -/
theorem c2_summarize_all_or_nothing_witness :
    summarize_page pageTwoFailsOracle twoPageState = Except.error Err.summaryParseFailed ∧
    runPipeline pageTwoFailsOracles (initial_state "go") = Except.error Err.summaryParseFailed := by
  have h := c2_summarize_all_or_nothing pageTwoFailsOracle twoPageState
    ⟨{ page_number := 2, content := "two" }, by decide, rfl⟩
  exact ⟨h.1, h.2 pageTwoFailsOracles (initial_state "go")
    { pdf_path := some "doc.pdf", query := some "q" }
    { extracted_pages := some [{ page_number := 1, content := "one" },
                               { page_number := 2, content := "two" }] }
    rfl rfl rfl rfl⟩

/-- A summary with fewer than three key points makes the block builder
raise `IndexError` at `key_points[0..2]`. -/
theorem summaryBlock_short {su : PageSummary} (h : su.key_points.length < 3) :
    summaryBlock su = Except.error Err.indexError := by
  have h2 : su.key_points[2]? = none := List.getElem?_eq_none (by omega)
  unfold summaryBlock
  simp only [List.get?_eq_getElem?]
  rcases h0 : su.key_points[0]? with _ | k0 <;>
    rcases h1 : su.key_points[1]? with _ | k1 <;>
      simp [h0, h1, h2]

/-- A summary with at least three key points builds exactly the block of
its heading sentence and first three key points. -/
theorem summaryBlock_of_three {su : PageSummary} {k0 k1 k2 : String}
    {rest : List String} (h : su.key_points = k0 :: k1 :: k2 :: rest) :
    summaryBlock su = Except.ok ("Page " ++ toString su.page_number
      ++ ":\n- **Heading Sentence**: " ++ su.heading_sentence
      ++ "\n- **Key Points**:\n  1. " ++ k0
      ++ "\n  2. " ++ k1 ++ "\n  3. " ++ k2) := by
  simp [summaryBlock, h]

/-- The `"\n\n".join` generator raises `IndexError` as soon as any summary
in the list has fewer than three key points. -/
theorem concatSummaries_of_short :
    ∀ (l : List PageSummary), (∃ su ∈ l, su.key_points.length < 3) →
      concatSummaries l = Except.error Err.indexError := by
  intro l
  induction l with
  | nil =>
      intro h
      obtain ⟨su, hsu, _⟩ := h
      cases hsu
  | cons a t ih =>
      intro h
      by_cases ha : a.key_points.length < 3
      · unfold concatSummaries
        rw [summaryBlock_short ha]
      · rcases e : a.key_points with _ | ⟨k0, _ | ⟨k1, _ | ⟨k2, rest⟩⟩⟩
        · simp [e] at ha
        · simp [e] at ha
        · simp [e] at ha
        · have ht : ∃ su ∈ t, su.key_points.length < 3 := by
            obtain ⟨su, hsu, hlen⟩ := h
            rcases List.mem_cons.mp hsu with rfl | h2
            · exact absurd hlen ha
            · exact ⟨su, h2, hlen⟩
          unfold concatSummaries
          rw [summaryBlock_of_three e, ih ht]
          rfl

/-- Claim C10: the Summarize stage accepts a parsed summary with any number
of key points (the schema does not enforce exactly 3); a summary with at
least three key points contributes exactly its first three to the search
prompt; and on any state passing the query/summaries guards in which some
summary has fewer than 3 key points, the Search stage raises the
out-of-range `IndexError` and thus aborts the run. -/
theorem c10_search_reads_three_key_points :
    (∀ (su : PageSummary) (p : PageContent) (s : State),
      s.extracted_pages = [p] →
      summarize_page (fun _ => Except.ok su) s =
        Except.ok { summarized_pages := some [su] }) ∧
    (∀ (su : PageSummary) (k0 k1 k2 : String) (rest : List String),
      su.key_points = k0 :: k1 :: k2 :: rest →
      summaryBlock su = Except.ok ("Page " ++ toString su.page_number
        ++ ":\n- **Heading Sentence**: " ++ su.heading_sentence
        ++ "\n- **Key Points**:\n  1. " ++ k0
        ++ "\n  2. " ++ k1 ++ "\n  3. " ++ k2)) ∧
    (∀ (searchOracle : String → String → Except Unit SearchResultList) (s : State),
      s.query ≠ "" → s.summarized_pages ≠ [] →
      (∃ su ∈ s.summarized_pages, su.key_points.length < 3) →
      search_summaries searchOracle s = Except.error Err.indexError) := by
  refine ⟨?_, ?_, ?_⟩
  · intro su p s hs
    simp only [summarize_page, hs]
    rfl
  · intro su k0 k1 k2 rest h
    exact summaryBlock_of_three h
  · intro searchOracle s hq hsum hshort
    simp only [search_summaries, if_neg hq, if_neg hsum,
      concatSummaries_of_short s.summarized_pages hshort]

/-- A parsed page summary with only two key points. -/
def shortSummary : PageSummary :=
  { page_number := 1, heading_sentence := "heading", key_points := ["a", "b"] }

/-- A single extracted page. -/
def pageOne : PageContent := { page_number := 1, content := "raw" }

/-- A state about to be summarized, holding just `pageOne`. -/
def onePageState : State :=
  { messages := [], pdf_path := "doc.pdf", query := "q"
    extracted_pages := [pageOne], summarized_pages := []
    search_results := [], verified_results := [] }

/-- A state reaching Search whose only summary has two key points. -/
def shortSummaryState : State :=
  { messages := [], pdf_path := "doc.pdf", query := "q"
    extracted_pages := [pageOne], summarized_pages := [shortSummary]
    search_results := [], verified_results := [] }

/-- Witness for `c10_search_reads_three_key_points`: the two-key-point
summary passes Summarize, then crashes Search. -/
theorem c10_search_reads_three_key_points_witness :
    summarize_page (fun _ => Except.ok shortSummary) onePageState =
      Except.ok { summarized_pages := some [shortSummary] } ∧
    search_summaries (fun _ _ => Except.ok { results := [] }) shortSummaryState =
      Except.error Err.indexError :=
  ⟨c10_search_reads_three_key_points.1 shortSummary pageOne onePageState rfl,
   c10_search_reads_three_key_points.2.2 (fun _ _ => Except.ok { results := [] })
     shortSummaryState (by decide) (by decide) ⟨shortSummary, by decide, by decide⟩⟩

/-- Claim C1: in the verification fan-out (whose tasks signal failure by
returning null rather than raising), if the verification call for the k-th
search result fails to parse while every sibling task yields a result, the
collected batch has one slot per input in input order, slot k is `None`,
every slot carries exactly its own task's value, and every slot other than
k is non-null — one task's failure aborts neither its siblings nor the
batch.  (The summarize fan-out's tasks re-raise instead of returning null,
which makes that whole stage fail — the asymmetry covered by
`c2_summarize_all_or_nothing`.) -/
theorem c1_fanout_isolation
    (verificationOracle : SearchResult → PageContent → Except Unit VerificationResult)
    (pages : List PageContent) (results : List SearchResult) (k : Nat)
    (hk : k < results.length)
    (hfail : ∀ p, verificationOracle results[k] p = Except.error ())
    (hsucc : ∀ (j : Nat) (hj : j < results.length), j ≠ k →
      (verifyTask verificationOracle pages results[j]).isSome = true) :
    (verifyGather verificationOracle pages results).length = results.length ∧
    (∀ j : Nat, (verifyGather verificationOracle pages results)[j]? =
      results[j]?.map (verifyTask verificationOracle pages)) ∧
    (verifyGather verificationOracle pages results)[k]? = some none ∧
    (∀ (j : Nat) (hj : j < results.length), j ≠ k →
      ∃ point, (verifyGather verificationOracle pages results)[j]? = some (some point)) := by
  have hslots : ∀ j : Nat, (verifyGather verificationOracle pages results)[j]? =
      results[j]?.map (verifyTask verificationOracle pages) := by
    intro j
    simp [verifyGather, List.getElem?_map]
  have hkslot : verifyTask verificationOracle pages results[k] = none := by
    unfold verifyTask
    rcases hfind : pages.find?
        (fun page => page.page_number == results[k].claimed_page) with _ | p
    · rw [hfind]
    · rw [hfind]
      simp [hfail p]
  refine ⟨by simp [verifyGather], hslots, ?_, ?_⟩
  · rw [hslots k, List.getElem?_eq_getElem hk]
    simp [hkslot]
  · intro j hj hne
    obtain ⟨point, hp⟩ := Option.isSome_iff_exists.mp (hsucc j hj hne)
    refine ⟨point, ?_⟩
    rw [hslots j, List.getElem?_eq_getElem hj]
    simp [hp]

/-- A verification oracle that fails to parse exactly for the result whose
content is "bad". -/
def flakyOracle : SearchResult → PageContent → Except Unit VerificationResult :=
  fun result _ =>
    if result.content = "bad" then Except.error ()
    else Except.ok { valid := true, explanation := "fine" }

/-- A 2-result batch whose second task's verification call fails. -/
def flakyResults : List SearchResult :=
  [{ content := "good", claimed_page := 1 }, { content := "bad", claimed_page := 1 }]

/-- Witness for `c1_fanout_isolation`: batch of 2, task 1 fails, task 0
unaffected. -/
theorem c1_fanout_isolation_witness :
    (verifyGather flakyOracle pagesOnlyOne flakyResults).length = flakyResults.length ∧
    (∀ j : Nat, (verifyGather flakyOracle pagesOnlyOne flakyResults)[j]? =
      flakyResults[j]?.map (verifyTask flakyOracle pagesOnlyOne)) ∧
    (verifyGather flakyOracle pagesOnlyOne flakyResults)[1]? = some none ∧
    (∀ (j : Nat) (hj : j < flakyResults.length), j ≠ 1 →
      ∃ point, (verifyGather flakyOracle pagesOnlyOne flakyResults)[j]? = some (some point)) :=
  c1_fanout_isolation flakyOracle pagesOnlyOne flakyResults 1 (by decide)
    (fun _ => rfl) (by decide)

/-- Claim C8: each stage's returned update sets exactly the fields that
stage owns — Interpret sets `pdf_path`/`query`, Extract sets
`extracted_pages`, Summarize sets `summarized_pages`, Search sets
`search_results`, Verify sets `verified_results` plus exactly one appended
message — every other field is absent from the update, no stage but Verify
appends messages, and the merge leaves absent fields untouched while only
ever appending to `messages`. -/
theorem c8_stage_frame :
    (∀ (inputOracle : String → Except Unit InputData) (s : State) (u : Update),
      process_input inputOracle s = Except.ok u →
      u.pdf_path.isSome = true ∧ u.query.isSome = true ∧ u.extracted_pages = none ∧
      u.summarized_pages = none ∧ u.search_results = none ∧
      u.verified_results = none ∧ u.messages = []) ∧
    (∀ (pdf_tool : String → Except Unit (List PageContent)) (s : State) (u : Update),
      process_pdf pdf_tool s = Except.ok u →
      u.extracted_pages.isSome = true ∧ u.pdf_path = none ∧ u.query = none ∧
      u.summarized_pages = none ∧ u.search_results = none ∧
      u.verified_results = none ∧ u.messages = []) ∧
    (∀ (summaryOracle : PageContent → Except Unit PageSummary) (s : State) (u : Update),
      summarize_page summaryOracle s = Except.ok u →
      u.summarized_pages.isSome = true ∧ u.pdf_path = none ∧ u.query = none ∧
      u.extracted_pages = none ∧ u.search_results = none ∧
      u.verified_results = none ∧ u.messages = []) ∧
    (∀ (searchOracle : String → String → Except Unit SearchResultList) (s : State) (u : Update),
      search_summaries searchOracle s = Except.ok u →
      u.search_results.isSome = true ∧ u.pdf_path = none ∧ u.query = none ∧
      u.extracted_pages = none ∧ u.summarized_pages = none ∧
      u.verified_results = none ∧ u.messages = []) ∧
    (∀ (verificationOracle : SearchResult → PageContent → Except Unit VerificationResult)
        (s : State) (u : Update),
      verify_results verificationOracle s = Except.ok u →
      u.verified_results.isSome = true ∧ u.pdf_path = none ∧ u.query = none ∧
      u.extracted_pages = none ∧ u.summarized_pages = none ∧
      u.search_results = none ∧ u.messages.length = 1) ∧
    (∀ (s : State) (u : Update),
      (applyUpdate s u).messages = s.messages ++ u.messages ∧
      (u.pdf_path = none → (applyUpdate s u).pdf_path = s.pdf_path) ∧
      (u.query = none → (applyUpdate s u).query = s.query) ∧
      (u.extracted_pages = none → (applyUpdate s u).extracted_pages = s.extracted_pages) ∧
      (u.summarized_pages = none → (applyUpdate s u).summarized_pages = s.summarized_pages) ∧
      (u.search_results = none → (applyUpdate s u).search_results = s.search_results) ∧
      (u.verified_results = none → (applyUpdate s u).verified_results = s.verified_results)) := by
  refine ⟨?_, ?_, ?_, ?_, ?_, ?_⟩
  · intro inputOracle s u h
    unfold process_input at h
    rcases hm : s.messages.getLast? with _ | m
    · rw [hm] at h
      cases h
    · rw [hm] at h
      rcases hi : inputOracle m.content with e | d
      · simp [hi] at h
      · simp only [hi] at h
        injection h with h
        subst h
        exact ⟨rfl, rfl, rfl, rfl, rfl, rfl, rfl⟩
  · intro pdf_tool s u h
    unfold process_pdf at h
    by_cases hp : s.pdf_path = ""
    · simp [hp] at h
    · rw [if_neg hp] at h
      rcases ht : pdf_tool s.pdf_path with e | pages
      · simp [ht] at h
      · simp only [ht] at h
        injection h with h
        subst h
        exact ⟨rfl, rfl, rfl, rfl, rfl, rfl, rfl⟩
  · intro summaryOracle s u h
    unfold summarize_page at h
    rcases hg : gatherExcept (s.extracted_pages.map
        (fun page_data => summaryOracle page_data)) with e | sums
    · rw [hg] at h
      cases h
    · rw [hg] at h
      injection h with h
      subst h
      exact ⟨rfl, rfl, rfl, rfl, rfl, rfl, rfl⟩
  · intro searchOracle s u h
    unfold search_summaries at h
    by_cases hq : s.query = ""
    · simp [hq] at h
    · rw [if_neg hq] at h
      by_cases hs2 : s.summarized_pages = []
      · simp [hs2] at h
      · rw [if_neg hs2] at h
        rcases hc : concatSummaries s.summarized_pages with e | blocks
        · rw [hc] at h
          cases h
        · rw [hc] at h
          rcases ho : searchOracle (String.intercalate "\n\n" blocks) s.query with e | res
          · simp [ho] at h
          · simp only [ho] at h
            injection h with h
            subst h
            exact ⟨rfl, rfl, rfl, rfl, rfl, rfl, rfl⟩
  · intro verificationOracle s u h
    by_cases h1 : s.search_results = []
    · simp [verify_results, h1] at h
    by_cases h2 : s.extracted_pages = []
    · simp [verify_results, h1, h2] at h
    simp only [verify_results, if_neg h1, if_neg h2] at h
    injection h with h
    subst h
    exact ⟨rfl, rfl, rfl, rfl, rfl, rfl, rfl⟩
  · intro s u
    refine ⟨rfl, ?_, ?_, ?_, ?_, ?_, ?_⟩ <;> intro h <;> simp [applyUpdate, h]

/-- A state reaching Search with one fully-formed summary. -/
def goodSummaryState : State :=
  { messages := [], pdf_path := "doc.pdf", query := "q"
    extracted_pages := [pageOne]
    summarized_pages := [{ page_number := 1, heading_sentence := "h"
                           key_points := ["a", "b", "c"] }]
    search_results := [], verified_results := [] }

/-- Witness for `c8_stage_frame`, one concrete update per stage. -/
theorem c8_stage_frame_witness :
    ({ pdf_path := some "doc.pdf", query := some "q" } : Update).extracted_pages = none ∧
    ({ extracted_pages := some [] } : Update).query = none ∧
    ({ summarized_pages := some [] } : Update).search_results = none ∧
    ({ search_results := some [] } : Update).verified_results = none ∧
    ({ messages := [{ role := "assistant", content := "Verified Results:\n\n" }]
       verified_results := some [] } : Update).messages.length = 1 :=
  ⟨(c8_stage_frame.1 (fun _ => Except.ok { pdf_path := "doc.pdf", query := "q" })
      (initial_state "go") { pdf_path := some "doc.pdf", query := some "q" } rfl).2.2.1,
   (c8_stage_frame.2.1 zeroPagesTool pathOnlyState
      { extracted_pages := some [] } rfl).2.2.1,
   (c8_stage_frame.2.2.1 (fun _ => Except.ok shortSummary) (initial_state "go")
      { summarized_pages := some [] } rfl).2.2.2.2.1,
   (c8_stage_frame.2.2.2.1 (fun _ _ => Except.ok { results := [] }) goodSummaryState
      { search_results := some [] } rfl).2.2.2.2.2.1,
   (c8_stage_frame.2.2.2.2.1 alwaysFailOracle threeResultsState
      { messages := [{ role := "assistant", content := "Verified Results:\n\n" }]
        verified_results := some [] } rfl).2.2.2.2.2.2⟩

end Trial
